import Mathlib

/-!
Shallow embedding of the local-dating-server core: the match engine
(MatchHandler.LikeUser, MatchHandler.DislikeUser, MatchHandler.Unmatch in
src/unnamed/part_005) and the websocket hub
(src/internal/websocket/hub.go).

The persistent store is modelled as lists of rows; gorm First on an
indexed predicate becomes List.find? / List.any over those lists, gorm
Create becomes appending a row, and gorm Save becomes an update of the
row with the matching primary key.  Auto-increment primary keys are
modelled with explicit counters.  HTTP status outcomes become explicit
result inductives.
-/

/-! ### Data model (src/internal/models) -/

structure User where
  id : Nat
  isActive : Bool
deriving DecidableEq, Repr

structure Like where
  likerId : Nat
  likedId : Nat
deriving DecidableEq, Repr

structure Dislike where
  dislikerId : Nat
  dislikedId : Nat
deriving DecidableEq, Repr

structure BlockedUser where
  blockerId : Nat
  blockedId : Nat
deriving DecidableEq, Repr

structure Match where
  id : Nat
  user1Id : Nat
  user2Id : Nat
  isActive : Bool
deriving DecidableEq, Repr

structure Conversation where
  id : Nat
  matchId : Nat
  isActive : Bool
deriving DecidableEq, Repr

structure Notification where
  userId : Nat
  kind : String
  title : String
  body : String
  data : String
deriving DecidableEq, Repr

structure DB where
  users : List User
  likes : List Like
  dislikes : List Dislike
  blocks : List BlockedUser
  matchRows : List Match
  conversations : List Conversation
  notifications : List Notification
  nextMatchId : Nat
  nextConversationId : Nat
deriving DecidableEq, Repr

/-! ### Store queries (gorm Where ... First, as used by the handlers) -/

def userActive (db : DB) (uid : Nat) : Bool :=
  db.users.any fun u => u.id == uid && u.isActive

def hasLike (db : DB) (liker liked : Nat) : Bool :=
  db.likes.any fun l => l.likerId == liker && l.likedId == liked

def hasDislike (db : DB) (disliker disliked : Nat) : Bool :=
  db.dislikes.any fun d => d.dislikerId == disliker && d.dislikedId == disliked

def hasBlock (db : DB) (blocker blocked : Nat) : Bool :=
  db.blocks.any fun b => b.blockerId == blocker && b.blockedId == blocked

/-! ### Result kinds returned to the REST layer -/

inductive LikeResult where
  | notFound
  | conflict
  | forbidden
  | liked
  | matched (matchId : Nat)
deriving DecidableEq, Repr

inductive DislikeResult where
  | conflict
  | ok
deriving DecidableEq, Repr

inductive UnmatchResult where
  | notFound
  | ok
deriving DecidableEq, Repr

/-- MatchHandler.createMatchNotification: inserts one notification row. -/
def createMatchNotification (uid _otherUid matchId : Nat) (db : DB) : DB :=
  { db with notifications := db.notifications ++
      [{ userId := uid, kind := "match", title := "New Match!",
         body := "You have a new match! Start chatting now.",
         data := "\x7b\"match_id\": " ++ toString matchId ++ "\x7d" }] }

/-- MatchHandler.LikeUser (src/unnamed/part_005): in order, the
active-target existence check (404), the duplicate-like check (409), the
one-directional block check (403), insertion of the Like row, then the
mutual-like lookup against the store that now contains the new row; on a
mutual like it creates the Match (user1 = the caller, i.e. the later
liker), the Conversation, and two notifications. -/
def likeUser (likerId likedId : Nat) (db : DB) : LikeResult × DB :=
  if !(userActive db likedId) then
    (LikeResult.notFound, db)
  else if hasLike db likerId likedId then
    (LikeResult.conflict, db)
  else if hasBlock db likerId likedId then
    (LikeResult.forbidden, db)
  else
    let db1 : DB := { db with likes := db.likes ++ [{ likerId := likerId, likedId := likedId }] }
    if hasLike db1 likedId likerId then
      let m : Match := { id := db1.nextMatchId, user1Id := likerId, user2Id := likedId, isActive := true }
      let db2 : DB := { db1 with matchRows := db1.matchRows ++ [m], nextMatchId := db1.nextMatchId + 1 }
      let conv : Conversation := { id := db2.nextConversationId, matchId := m.id, isActive := true }
      let db3 : DB :=
        { db2 with
          conversations := db2.conversations ++ [conv]
          nextConversationId := db2.nextConversationId + 1 }
      let db4 : DB := createMatchNotification likerId likedId m.id db3
      let db5 : DB := createMatchNotification likedId likerId m.id db4
      (LikeResult.matched m.id, db5)
    else
      (LikeResult.liked, db1)

/-- MatchHandler.DislikeUser (src/unnamed/part_005): duplicate-dislike
check (409) then insertion; no target-existence check, no block check,
no lookup of Like rows. -/
def dislikeUser (dislikerId dislikedId : Nat) (db : DB) : DislikeResult × DB :=
  if hasDislike db dislikerId dislikedId then
    (DislikeResult.conflict, db)
  else
    (DislikeResult.ok,
     { db with dislikes := db.dislikes ++ [{ dislikerId := dislikerId, dislikedId := dislikedId }] })

/-- The gorm First query of MatchHandler.Unmatch: the first match row
with this id, this requester as a participant, and isActive true. -/
def findActiveMatchFor (db : DB) (requester matchId : Nat) : Option Match :=
  db.matchRows.find? fun m =>
    m.id == matchId && (m.user1Id == requester || m.user2Id == requester) && m.isActive

/-- MatchHandler.Unmatch (src/unnamed/part_005): 404 unless the requester
is a participant of an active match with that id; on success saves the
match with isActive false, then deactivates the first conversation row
whose matchId matches, if any. -/
def unmatch (requester matchId : Nat) (db : DB) : UnmatchResult × DB :=
  match findActiveMatchFor db requester matchId with
  | none => (UnmatchResult.notFound, db)
  | some m =>
    let db1 : DB := { db with matchRows := db.matchRows.map fun x =>
        if x.id == m.id then { x with isActive := false } else x }
    let db2 : DB :=
      match db1.conversations.find? (fun c => c.matchId == matchId) with
      | none => db1
      | some c =>
        { db1 with conversations := db1.conversations.map fun x =>
            if x.id == c.id then { x with isActive := false } else x }
    (UnmatchResult.ok, db2)

/-! ### Websocket hub (src/internal/websocket/hub.go)

A Client models one live connection: id models the Go pointer identity
of the Client struct (the key of the clients map), send models the
contents of the buffered send channel, and sendCap its capacity (256 in
HandleWebSocket).  The Hub clients map becomes a list of clients; all
hub events are serialized through Hub.Run, so each operation is a plain
function on the hub state. -/

structure Client where
  id : Nat
  userID : Nat
  conversationID : Nat
  send : List String
  sendCap : Nat
deriving DecidableEq, Repr

structure Hub where
  clients : List Client
deriving DecidableEq, Repr

/-- Hub.Run register case: the client is added to the clients map. -/
def registerClient (h : Hub) (c : Client) : Hub :=
  { h with clients := h.clients ++ [c] }

/-- Hub.Run unregister case (also reached via the readPump defer): if the
client is present it is deleted and its send channel closed. -/
def unregisterClient (h : Hub) (cid : Nat) : Hub :=
  { h with clients := h.clients.filter fun c => !(c.id == cid) }

/-- The select send/default idiom of the broadcast loops: enqueue when the
buffered channel has room, otherwise close the channel and delete the
client (slow-consumer eviction). -/
def sendOrEvict (msg : String) (c : Client) : Option Client :=
  if c.send.length < c.sendCap then some { c with send := c.send ++ [msg] }
  else none

/-- Hub.Run broadcast case: every client either gets the message enqueued
or is evicted. -/
def broadcastAll (h : Hub) (msg : String) : Hub :=
  { h with clients := h.clients.filterMap (sendOrEvict msg) }

/-- Hub.BroadcastToConversation: clients whose conversationID equals the
target get the message enqueued (or are evicted when full); all other
clients are untouched. -/
def broadcastToConversation (h : Hub) (convId : Nat) (msg : String) : Hub :=
  { h with clients := h.clients.filterMap fun c =>
      if c.conversationID == convId then sendOrEvict msg c else some c }

/-- Hub.BroadcastToUser: same policy keyed by the owning user id. -/
def broadcastToUser (h : Hub) (uid : Nat) (msg : String) : Hub :=
  { h with clients := h.clients.filterMap fun c =>
      if c.userID == uid then sendOrEvict msg c else some c }

/-- The sessions a conversation fan-out would target: derived by scanning
the clients map, which is the only membership structure in the source. -/
def conversationMembers (h : Hub) (convId : Nat) : List Client :=
  h.clients.filter fun c => c.conversationID == convId

/-- The five serialized hub operations. -/
inductive HubOp where
  | register (c : Client)
  | unregister (cid : Nat)
  | broadcast (msg : String)
  | broadcastConv (convId : Nat) (msg : String)
  | broadcastUser (uid : Nat) (msg : String)
deriving DecidableEq, Repr

def applyHubOp (h : Hub) : HubOp → Hub
  | HubOp.register c => registerClient h c
  | HubOp.unregister cid => unregisterClient h cid
  | HubOp.broadcast msg => broadcastAll h msg
  | HubOp.broadcastConv convId msg => broadcastToConversation h convId msg
  | HubOp.broadcastUser uid msg => broadcastToUser h uid msg

/-! ### Client read pump (Client.readPump) -/

/-- The typing-indicator payload; field order as declared in the Go
TypingMessage struct. -/
structure TypingMessage where
  kind : String
  conversationID : Nat
  userID : Nat
  isTyping : Bool
deriving DecidableEq, Repr

/-- json.Marshal of TypingMessage: fields in declaration order with the
tags type, conversation_id, user_id, is_typing. -/
def marshalTypingMessage (m : TypingMessage) : String :=
  "\x7b\"type\":\"" ++ m.kind ++ "\",\"conversation_id\":" ++ toString m.conversationID ++
    ",\"user_id\":" ++ toString m.userID ++ ",\"is_typing\":" ++
    (if m.isTyping then "true" else "false") ++ "\x7d"

/-- One inbound event on a client socket, after the read and the
json.Unmarshal attempt: a read error, a frame that fails to unmarshal,
or a decoded control frame.  The conversation_id field is an Option
because the float64 type assertion can fail. -/
inductive InboundFrame where
  | readError
  | malformed
  | joinConversation (conversationId : Option Nat)
  | typing (conversationId : Option Nat)
  | stopTyping (conversationId : Option Nat)
  | other
deriving DecidableEq, Repr

/-- The join_conversation case: mutate the conversationID of this client
(the hub holds a pointer to the same struct, so the change is visible to
broadcasts). -/
def setClientConversation (h : Hub) (cid convId : Nat) : Hub :=
  { h with clients := h.clients.map fun c =>
      if c.id == cid then { c with conversationID := convId } else c }

/-- One iteration of the Client.readPump loop for the client with pointer
identity cid and owning user uid.  Returns the hub after the iteration
and true when the loop breaks (read error), which runs the deferred
unregister and socket close.  A frame that fails json.Unmarshal is
logged and skipped; an unknown type falls through the switch. -/
def readPumpStep (h : Hub) (cid uid : Nat) : InboundFrame → Hub × Bool
  | InboundFrame.readError => (unregisterClient h cid, true)
  | InboundFrame.malformed => (h, false)
  | InboundFrame.joinConversation none => (h, false)
  | InboundFrame.joinConversation (some n) => (setClientConversation h cid n, false)
  | InboundFrame.typing none => (h, false)
  | InboundFrame.typing (some n) =>
      (broadcastToConversation h n
        (marshalTypingMessage
          { kind := "typing", conversationID := n, userID := uid, isTyping := true }), false)
  | InboundFrame.stopTyping none => (h, false)
  | InboundFrame.stopTyping (some n) =>
      (broadcastToConversation h n
        (marshalTypingMessage
          { kind := "typing", conversationID := n, userID := uid, isTyping := false }), false)
  | InboundFrame.other => (h, false)

/-- The readPump loop over a finite trace of inbound events; stops at the
first read error (the only break). -/
def runReadPump (h : Hub) (cid uid : Nat) : List InboundFrame → Hub
  | [] => h
  | f :: rest =>
    let r := readPumpStep h cid uid f
    if r.2 then r.1 else runReadPump r.1 cid uid rest

/-! ### Concrete store used by the witnesses -/

def dbW : DB :=
  { users := [{ id := 1, isActive := true }, { id := 2, isActive := true },
              { id := 3, isActive := true }],
    likes := [], dislikes := [], blocks := [], matchRows := [], conversations := [],
    notifications := [], nextMatchId := 10, nextConversationId := 20 }

/-- A store whose user 9 does not exist while a stale Like row and
BlockedUser row toward 9 do. -/
def dbW2 : DB :=
  { users := [{ id := 1, isActive := true }, { id := 5, isActive := false }],
    likes := [{ likerId := 1, likedId := 9 }], dislikes := [],
    blocks := [{ blockerId := 1, blockedId := 9 }], matchRows := [],
    conversations := [], notifications := [], nextMatchId := 1, nextConversationId := 1 }

/-! ### Shared facts about likeUser -/

/-- On the no-prior-interaction path the first like returns a plain liked
result and only appends the Like row. -/
lemma likeUser_first_step (db : DB) (A B : Nat) (hAB : A ≠ B)
    (hB : userActive db B = true)
    (hlAB : hasLike db A B = false) (hlBA : hasLike db B A = false)
    (hbAB : hasBlock db A B = false) :
    likeUser A B db =
      (LikeResult.liked,
       { db with likes := db.likes ++ [{ likerId := A, likedId := B }] }) := by
  have hBA : (B == A) = false := beq_false_of_ne (fun e => hAB e.symm)
  have h2 : hasLike { db with likes := db.likes ++ [{ likerId := A, likedId := B }] } B A = false := by
    simp [hasLike] at hlBA
    simp only [hasLike, List.any_append, List.any_cons, List.any_nil]
    simp [hBA]
    exact hlBA
  simp [likeUser, hB, hlAB, hbAB, h2]

/-- C1: for distinct users A and B with no prior interaction, like(A,B)
then like(B,A) returns a plain liked result then a matched result; the
created Match records the later liker B as user1 and is active, and
exactly one Conversation is created, active and linked to that Match id. -/
theorem likeUser_mutual_like_creates_match (db : DB) (A B : Nat)
    (hAB : A ≠ B)
    (hA : userActive db A = true) (hB : userActive db B = true)
    (hlAB : hasLike db A B = false) (hlBA : hasLike db B A = false)
    (hbAB : hasBlock db A B = false) (hbBA : hasBlock db B A = false) :
    (likeUser A B db).1 = LikeResult.liked ∧
    (likeUser B A (likeUser A B db).2).1 = LikeResult.matched db.nextMatchId ∧
    (likeUser B A (likeUser A B db).2).2.matchRows =
      db.matchRows ++ [{ id := db.nextMatchId, user1Id := B, user2Id := A, isActive := true }] ∧
    (likeUser B A (likeUser A B db).2).2.conversations =
      db.conversations ++
        [{ id := db.nextConversationId, matchId := db.nextMatchId, isActive := true }] := by
  have hBA : (B == A) = false := beq_false_of_ne (fun e => hAB e.symm)
  have e1 := likeUser_first_step db A B hAB hB hlAB hlBA hbAB
  have c1 : userActive { db with likes := db.likes ++ [{ likerId := A, likedId := B }] } A = true := by
    simpa [userActive] using hA
  have c2 : hasLike { db with likes := db.likes ++ [{ likerId := A, likedId := B }] } B A = false := by
    simp [hasLike] at hlBA
    simp only [hasLike, List.any_append, List.any_cons, List.any_nil]
    simp [hBA]
    exact hlBA
  have c3 : hasBlock { db with likes := db.likes ++ [{ likerId := A, likedId := B }] } B A = false := by
    simpa [hasBlock] using hbBA
  have c4 : hasLike
      { db with likes := db.likes ++
          [{ likerId := A, likedId := B }, { likerId := B, likedId := A }] }
      A B = true := by
    simp [hasLike, List.any_append]
  rw [e1]
  simp [likeUser, c1, c2, c3, c4, createMatchNotification]

/-- Witness for C1 at the concrete store dbW with users 1 and 2. -/
theorem likeUser_mutual_like_creates_match_witness :
    (likeUser 1 2 dbW).1 = LikeResult.liked ∧
    (likeUser 2 1 (likeUser 1 2 dbW).2).1 = LikeResult.matched dbW.nextMatchId ∧
    (likeUser 2 1 (likeUser 1 2 dbW).2).2.matchRows =
      dbW.matchRows ++ [{ id := dbW.nextMatchId, user1Id := 2, user2Id := 1, isActive := true }] ∧
    (likeUser 2 1 (likeUser 1 2 dbW).2).2.conversations =
      dbW.conversations ++
        [{ id := dbW.nextConversationId, matchId := dbW.nextMatchId, isActive := true }] :=
  likeUser_mutual_like_creates_match dbW 1 2 (by decide) (by decide) (by decide)
    (by decide) (by decide) (by decide) (by decide)

/-- When the three guards pass and the reverse Like is absent even after
the insert, likeUser returns liked and only appends the Like row. -/
lemma likeUser_result_liked (db : DB) (A B : Nat)
    (h1 : userActive db B = true) (h2 : hasLike db A B = false)
    (h3 : hasBlock db A B = false)
    (hm : hasLike { db with likes := db.likes ++ [{ likerId := A, likedId := B }] } B A = false) :
    likeUser A B db =
      (LikeResult.liked, { db with likes := db.likes ++ [{ likerId := A, likedId := B }] }) := by
  simp [likeUser, h1, h2, h3, hm]

/-- When the three guards pass and the reverse Like is present, likeUser
returns matched and appends the Like row, one Match row with the caller
as user1, one Conversation row linked to it, and two notifications. -/
lemma likeUser_result_matched (db : DB) (A B : Nat)
    (h1 : userActive db B = true) (h2 : hasLike db A B = false)
    (h3 : hasBlock db A B = false)
    (hm : hasLike { db with likes := db.likes ++ [{ likerId := A, likedId := B }] } B A = true) :
    likeUser A B db =
      (LikeResult.matched db.nextMatchId,
       { db with
         likes := db.likes ++ [{ likerId := A, likedId := B }]
         matchRows := db.matchRows ++
           [{ id := db.nextMatchId, user1Id := A, user2Id := B, isActive := true }]
         conversations := db.conversations ++
           [{ id := db.nextConversationId, matchId := db.nextMatchId, isActive := true }]
         notifications := db.notifications ++
           [{ userId := A, kind := "match", title := "New Match!",
              body := "You have a new match! Start chatting now.",
              data := "\x7b\"match_id\": " ++ toString db.nextMatchId ++ "\x7d" },
            { userId := B, kind := "match", title := "New Match!",
              body := "You have a new match! Start chatting now.",
              data := "\x7b\"match_id\": " ++ toString db.nextMatchId ++ "\x7d" }]
         nextMatchId := db.nextMatchId + 1
         nextConversationId := db.nextConversationId + 1 }) := by
  simp [likeUser, h1, h2, h3, hm, createMatchNotification]

/-- After a like that passed all three guards, the user table is
unchanged and the Like row for the ordered pair is present. -/
lemma likeUser_success_state (db : DB) (A B : Nat)
    (h1 : userActive db B = true) (h2 : hasLike db A B = false)
    (h3 : hasBlock db A B = false) :
    (likeUser A B db).2.users = db.users ∧ hasLike (likeUser A B db).2 A B = true := by
  by_cases hm : hasLike { db with likes := db.likes ++ [{ likerId := A, likedId := B }] } B A = true
  · rw [likeUser_result_matched db A B h1 h2 h3 hm]
    exact ⟨rfl, by simp [hasLike, List.any_append]⟩
  · have hm2 : hasLike { db with likes := db.likes ++ [{ likerId := A, likedId := B }] } B A = false := by
      simpa using hm
    rw [likeUser_result_liked db A B h1 h2 h3 hm2]
    exact ⟨rfl, by simp [hasLike, List.any_append]⟩

/-- A like against a store that already holds the ordered Like row fails
with Conflict and changes nothing. -/
lemma likeUser_conflict_of_hasLike (db : DB) (A B : Nat)
    (g1 : userActive db B = true) (g2 : hasLike db A B = true) :
    likeUser A B db = (LikeResult.conflict, db) := by
  simp [likeUser, g1, g2]

/-- C2: after a successful like(A,B) (plain liked or matched), a second
like(A,B) fails with Conflict and leaves the store exactly as it was
after the first call: no new Like row, no new Match. -/
theorem likeUser_twice_conflict (db : DB) (A B : Nat)
    (hsucc : (likeUser A B db).1 = LikeResult.liked ∨
             ∃ mid, (likeUser A B db).1 = LikeResult.matched mid) :
    likeUser A B (likeUser A B db).2 = (LikeResult.conflict, (likeUser A B db).2) := by
  by_cases h1 : userActive db B = true
  · by_cases h2 : hasLike db A B = false
    · by_cases h3 : hasBlock db A B = false
      · have hs := likeUser_success_state db A B h1 h2 h3
        have g1 : userActive (likeUser A B db).2 B = true := by
          unfold userActive at h1 ⊢
          rw [hs.1]
          exact h1
        exact likeUser_conflict_of_hasLike (likeUser A B db).2 A B g1 hs.2
      · have h3b : hasBlock db A B = true := by simpa using h3
        have e : likeUser A B db = (LikeResult.forbidden, db) := by
          simp [likeUser, h1, h2, h3b]
        rw [e] at hsucc
        simp at hsucc
    · have h2b : hasLike db A B = true := by simpa using h2
      have e : likeUser A B db = (LikeResult.conflict, db) := by
        simp [likeUser, h1, h2b]
      rw [e] at hsucc
      simp at hsucc
  · have h1b : userActive db B = false := by simpa using h1
    have e : likeUser A B db = (LikeResult.notFound, db) := by
      simp [likeUser, h1b]
    rw [e] at hsucc
    simp at hsucc

/-- Witness for C2: user 1 likes user 2 twice in dbW. -/
theorem likeUser_twice_conflict_witness :
    likeUser 1 2 (likeUser 1 2 dbW).2 = (LikeResult.conflict, (likeUser 1 2 dbW).2) :=
  likeUser_twice_conflict dbW 1 2 (Or.inl (by decide))

/-- C10: when no active user with id B exists, like(A,B) returns NotFound
and changes nothing, whatever Like or BlockedUser rows exist (the
existence check runs first); dislike has no existence check, so the same
nonexistent target yields a persisted Dislike row and a success. -/
theorem likeUser_notFound_precedence (db : DB) (A B : Nat)
    (hB : userActive db B = false) :
    likeUser A B db = (LikeResult.notFound, db) ∧
    (hasDislike db A B = false →
      dislikeUser A B db =
        (DislikeResult.ok,
         { db with dislikes := db.dislikes ++ [{ dislikerId := A, dislikedId := B }] })) := by
  constructor
  · simp [likeUser, hB]
  · intro hd
    simp [dislikeUser, hd]

/-- Witness for C10 at dbW2: user 9 does not exist, yet a Like row 1 to 9
and a BlockedUser row 1 to 9 are present; like is NotFound, dislike
succeeds. -/
theorem likeUser_notFound_precedence_witness :
    likeUser 1 9 dbW2 = (LikeResult.notFound, dbW2) ∧
    dislikeUser 1 9 dbW2 =
      (DislikeResult.ok,
       { dbW2 with dislikes := dbW2.dislikes ++ [{ dislikerId := 1, dislikedId := 9 }] }) :=
  ⟨(likeUser_notFound_precedence dbW2 1 9 (by decide)).1,
   (likeUser_notFound_precedence dbW2 1 9 (by decide)).2 (by decide)⟩

/-- C7: with the target existing and no duplicate like, like(A,B) is
Forbidden exactly when A has blocked B (the check reads only the
liker-to-liked direction of BlockedUser), and when it is Forbidden the
store is unchanged: no Like row is persisted. -/
theorem likeUser_forbidden_iff_block (db : DB) (A B : Nat)
    (hB : userActive db B = true) (hl : hasLike db A B = false) :
    ((likeUser A B db).1 = LikeResult.forbidden ↔ hasBlock db A B = true) ∧
    (hasBlock db A B = true → likeUser A B db = (LikeResult.forbidden, db)) := by
  by_cases hb : hasBlock db A B = true
  · have e : likeUser A B db = (LikeResult.forbidden, db) := by
      simp [likeUser, hB, hl, hb]
    rw [e]
    exact ⟨by simp [hb], fun _ => rfl⟩
  · have hb2 : hasBlock db A B = false := by simpa using hb
    constructor
    · constructor
      · intro hf
        exfalso
        by_cases hm : hasLike { db with likes := db.likes ++ [{ likerId := A, likedId := B }] } B A = true
        · rw [likeUser_result_matched db A B hB hl hb2 hm] at hf
          simp at hf
        · have hm2 : hasLike { db with likes := db.likes ++ [{ likerId := A, likedId := B }] } B A = false := by
            simpa using hm
          rw [likeUser_result_liked db A B hB hl hb2 hm2] at hf
          simp at hf
      · intro hb3
        exact absurd hb3 (by simp [hb2])
    · intro hb3
      exact absurd hb3 (by simp [hb2])

/-- Store for the Forbidden side of C7: user 1 has blocked user 2. -/
def dbB : DB :=
  { users := [{ id := 1, isActive := true }, { id := 2, isActive := true }],
    likes := [], dislikes := [],
    blocks := [{ blockerId := 1, blockedId := 2 }], matchRows := [],
    conversations := [], notifications := [], nextMatchId := 1, nextConversationId := 1 }

/-- Store for the one-directional side of C7: only user 2 has blocked
user 1, and user 2 even already likes user 1. -/
def dbRB : DB :=
  { users := [{ id := 1, isActive := true }, { id := 2, isActive := true }],
    likes := [{ likerId := 2, likedId := 1 }], dislikes := [],
    blocks := [{ blockerId := 2, blockedId := 1 }], matchRows := [],
    conversations := [], notifications := [], nextMatchId := 1, nextConversationId := 1 }

/-- Witness for C7: in dbB the like is Forbidden with nothing persisted;
in dbRB the reverse-direction block does not produce Forbidden. -/
theorem likeUser_forbidden_iff_block_witness :
    likeUser 1 2 dbB = (LikeResult.forbidden, dbB) ∧
    ((likeUser 1 2 dbRB).1 = LikeResult.forbidden ↔ hasBlock dbRB 1 2 = true) :=
  ⟨(likeUser_forbidden_iff_block dbB 1 2 (by decide) (by decide)).2 (by decide),
   (likeUser_forbidden_iff_block dbRB 1 2 (by decide) (by decide)).1⟩

/-- C6: Like rows are append-only under every MatchEngine operation:
dislike never touches the likes table and its outcome reads neither the
likes nor the blocks tables; concretely, dislike(A,B) after like(A,B)
keeps the Like row, so a later like(B,A) still detects the mutual like
and produces a match. -/
theorem dislike_keeps_likes (db : DB) (A B : Nat)
    (hAB : A ≠ B)
    (hA : userActive db A = true) (hB : userActive db B = true)
    (hlAB : hasLike db A B = false) (hlBA : hasLike db B A = false)
    (hbAB : hasBlock db A B = false) (hbBA : hasBlock db B A = false)
    (hd : hasDislike db A B = false) :
    (∀ (d : DB) (x y : Nat), (dislikeUser x y d).2.likes = d.likes) ∧
    (∀ (d : DB) (x y : Nat) (lk : List Like) (bl : List BlockedUser),
        (dislikeUser x y { d with likes := lk, blocks := bl }).1 = (dislikeUser x y d).1) ∧
    ((likeUser A B db).1 = LikeResult.liked ∧
     (dislikeUser A B (likeUser A B db).2).1 = DislikeResult.ok ∧
     (dislikeUser A B (likeUser A B db).2).2.likes = (likeUser A B db).2.likes ∧
     (likeUser B A (dislikeUser A B (likeUser A B db).2).2).1 =
       LikeResult.matched db.nextMatchId) := by
  have hBA : (B == A) = false := beq_false_of_ne (fun e => hAB e.symm)
  refine ⟨?_, ?_, ?_⟩
  · intro d x y
    unfold dislikeUser
    split
    · rfl
    · rfl
  · intro d x y lk bl
    unfold dislikeUser
    have hsame : hasDislike { d with likes := lk, blocks := bl } x y = hasDislike d x y := rfl
    rw [hsame]
    split
    · rfl
    · rfl
  · have e1 := likeUser_first_step db A B hAB hB hlAB hlBA hbAB
    have e2 : dislikeUser A B { db with likes := db.likes ++ [{ likerId := A, likedId := B }] } =
        (DislikeResult.ok,
         { db with
           likes := db.likes ++ [{ likerId := A, likedId := B }]
           dislikes := db.dislikes ++ [{ dislikerId := A, dislikedId := B }] }) := by
      have d1 : hasDislike { db with likes := db.likes ++ [{ likerId := A, likedId := B }] } A B = false := by
        simpa [hasDislike] using hd
      simp [dislikeUser, d1]
    have g1 : userActive
        { db with
          likes := db.likes ++ [{ likerId := A, likedId := B }]
          dislikes := db.dislikes ++ [{ dislikerId := A, dislikedId := B }] } A = true := by
      simpa [userActive] using hA
    have g2 : hasLike
        { db with
          likes := db.likes ++ [{ likerId := A, likedId := B }]
          dislikes := db.dislikes ++ [{ dislikerId := A, dislikedId := B }] } B A = false := by
      simp [hasLike] at hlBA
      simp only [hasLike, List.any_append, List.any_cons, List.any_nil]
      simp [hBA]
      exact hlBA
    have g3 : hasBlock
        { db with
          likes := db.likes ++ [{ likerId := A, likedId := B }]
          dislikes := db.dislikes ++ [{ dislikerId := A, dislikedId := B }] } B A = false := by
      simpa [hasBlock] using hbBA
    have g4 : hasLike
        { db with
          likes := db.likes ++
            [{ likerId := A, likedId := B }, { likerId := B, likedId := A }]
          dislikes := db.dislikes ++ [{ dislikerId := A, dislikedId := B }] } A B = true := by
      simp [hasLike, List.any_append]
    rw [e1]
    dsimp only
    rw [e2]
    dsimp only
    refine ⟨rfl, rfl, rfl, ?_⟩
    simp [likeUser, g1, g2, g3, g4]

/-- Witness for C6 at dbW with users 1 and 2. -/
theorem dislike_keeps_likes_witness :
    (∀ (d : DB) (x y : Nat), (dislikeUser x y d).2.likes = d.likes) ∧
    (∀ (d : DB) (x y : Nat) (lk : List Like) (bl : List BlockedUser),
        (dislikeUser x y { d with likes := lk, blocks := bl }).1 = (dislikeUser x y d).1) ∧
    ((likeUser 1 2 dbW).1 = LikeResult.liked ∧
     (dislikeUser 1 2 (likeUser 1 2 dbW).2).1 = DislikeResult.ok ∧
     (dislikeUser 1 2 (likeUser 1 2 dbW).2).2.likes = (likeUser 1 2 dbW).2.likes ∧
     (likeUser 2 1 (dislikeUser 1 2 (likeUser 1 2 dbW).2).2).1 =
       LikeResult.matched dbW.nextMatchId) :=
  dislike_keeps_likes dbW 1 2 (by decide) (by decide) (by decide) (by decide)
    (by decide) (by decide) (by decide) (by decide)

/-- C3: unmatch(req, mid) is NotFound unless req is a participant of an
active match with id mid (in particular a third user always gets
NotFound); on success the match rows with id mid and the conversation
row found for mid are deactivated, and no Like or Dislike row is
deleted. -/
theorem unmatch_access_control (db : DB) (req mid : Nat) :
    ((¬ ∃ m ∈ db.matchRows,
        m.id = mid ∧ (m.user1Id = req ∨ m.user2Id = req) ∧ m.isActive = true) →
      unmatch req mid db = (UnmatchResult.notFound, db)) ∧
    ((∀ m ∈ db.matchRows, m.user1Id ≠ req ∧ m.user2Id ≠ req) →
      unmatch req mid db = (UnmatchResult.notFound, db)) ∧
    (∀ m, findActiveMatchFor db req mid = some m →
      (unmatch req mid db).1 = UnmatchResult.ok ∧
      (∀ x ∈ (unmatch req mid db).2.matchRows, x.id = mid → x.isActive = false) ∧
      (∀ conv, db.conversations.find? (fun c => c.matchId == mid) = some conv →
        ∀ x ∈ (unmatch req mid db).2.conversations, x.id = conv.id → x.isActive = false) ∧
      (unmatch req mid db).2.likes = db.likes ∧
      (unmatch req mid db).2.dislikes = db.dislikes) := by
  have p1 : (¬ ∃ m ∈ db.matchRows,
      m.id = mid ∧ (m.user1Id = req ∨ m.user2Id = req) ∧ m.isActive = true) →
      unmatch req mid db = (UnmatchResult.notFound, db) := by
    intro hne
    have hfind : findActiveMatchFor db req mid = none := by
      rw [findActiveMatchFor, List.find?_eq_none]
      intro x hx hp
      apply hne
      refine ⟨x, hx, ?_⟩
      simpa [and_assoc] using hp
    simp [unmatch, hfind]
  refine ⟨p1, ?_, ?_⟩
  · intro hno
    apply p1
    rintro ⟨m, hm, _e1, hpart, _e2⟩
    rcases hpart with h | h
    · exact (hno m hm).1 h
    · exact (hno m hm).2 h
  · intro m hfind
    have hmid : m.id = mid := by
      rw [findActiveMatchFor] at hfind
      have hp := List.find?_some hfind
      simp at hp
      exact hp.1.1
    cases hc : db.conversations.find? fun c => c.matchId == mid with
    | none =>
      have e : unmatch req mid db =
          (UnmatchResult.ok,
           { db with matchRows := db.matchRows.map fun x =>
               if x.id == m.id then { x with isActive := false } else x }) := by
        simp [unmatch, hfind, hc]
      rw [e]
      refine ⟨rfl, ?_, ?_, rfl, rfl⟩
      · intro x hx hxid
        rcases List.mem_map.1 hx with ⟨y, hy, rfl⟩
        by_cases hy2 : (y.id == m.id) = true
        · simp [hy2]
        · exfalso
          simp [hy2] at hxid
          exact hy2 (by simp [beq_iff_eq, hxid, hmid])
      · intro conv hconv
        exact absurd hconv (by simp)
    | some conv0 =>
      have e : unmatch req mid db =
          (UnmatchResult.ok,
           { db with
             matchRows := db.matchRows.map fun x =>
               if x.id == m.id then { x with isActive := false } else x
             conversations := db.conversations.map fun x =>
               if x.id == conv0.id then { x with isActive := false } else x }) := by
        simp [unmatch, hfind, hc]
      rw [e]
      refine ⟨rfl, ?_, ?_, rfl, rfl⟩
      · intro x hx hxid
        rcases List.mem_map.1 hx with ⟨y, hy, rfl⟩
        by_cases hy2 : (y.id == m.id) = true
        · simp [hy2]
        · exfalso
          simp [hy2] at hxid
          exact hy2 (by simp [beq_iff_eq, hxid, hmid])
      · intro conv hconv
        have hconv0 : conv0 = conv := by injection hconv
        subst hconv0
        intro x hx hxid
        rcases List.mem_map.1 hx with ⟨y, hy, rfl⟩
        by_cases hy2 : (y.id == conv0.id) = true
        · simp [hy2]
        · exfalso
          simp [hy2] at hxid
          exact hy2 (by simp [beq_iff_eq, hxid])

/-- Store with an active match 4 between users 2 and 1 and its
conversation 6, used by the C3 witness. -/
def dbM : DB :=
  { users := [{ id := 1, isActive := true }, { id := 2, isActive := true }],
    likes := [{ likerId := 1, likedId := 2 }, { likerId := 2, likedId := 1 }],
    dislikes := [], blocks := [],
    matchRows := [{ id := 4, user1Id := 2, user2Id := 1, isActive := true }],
    conversations := [{ id := 6, matchId := 4, isActive := true }],
    notifications := [], nextMatchId := 5, nextConversationId := 7 }

/-- Witness for C3: third user 3 gets NotFound on match 4; participant 1
succeeds and both the match and its conversation are deactivated with
likes and dislikes intact. -/
theorem unmatch_access_control_witness :
    unmatch 3 4 dbM = (UnmatchResult.notFound, dbM) ∧
    (unmatch 1 4 dbM).1 = UnmatchResult.ok ∧
    (∀ x ∈ (unmatch 1 4 dbM).2.matchRows, x.id = 4 → x.isActive = false) ∧
    (∀ x ∈ (unmatch 1 4 dbM).2.conversations, x.id = 6 → x.isActive = false) ∧
    (unmatch 1 4 dbM).2.likes = dbM.likes ∧
    (unmatch 1 4 dbM).2.dislikes = dbM.dislikes :=
  ⟨(unmatch_access_control dbM 3 4).2.1 (by decide),
   ((unmatch_access_control dbM 1 4).2.2
      { id := 4, user1Id := 2, user2Id := 1, isActive := true } (by decide)).1,
   ((unmatch_access_control dbM 1 4).2.2
      { id := 4, user1Id := 2, user2Id := 1, isActive := true } (by decide)).2.1,
   ((unmatch_access_control dbM 1 4).2.2
      { id := 4, user1Id := 2, user2Id := 1, isActive := true } (by decide)).2.2.1
      { id := 6, matchId := 4, isActive := true } (by decide),
   ((unmatch_access_control dbM 1 4).2.2
      { id := 4, user1Id := 2, user2Id := 1, isActive := true } (by decide)).2.2.2.1,
   ((unmatch_access_control dbM 1 4).2.2
      { id := 4, user1Id := 2, user2Id := 1, isActive := true } (by decide)).2.2.2.2⟩

/-! ### Hub facts -/

/-- A client surviving sendOrEvict keeps its identity and static fields,
gains the message, and must have had room in its queue. -/
lemma sendOrEvict_some (msg : String) (c x : Client) (h : sendOrEvict msg c = some x) :
    x.id = c.id ∧ x.userID = c.userID ∧ x.conversationID = c.conversationID ∧
    x.sendCap = c.sendCap ∧ x.send = c.send ++ [msg] ∧ c.send.length < c.sendCap := by
  unfold sendOrEvict at h
  by_cases hr : c.send.length < c.sendCap
  · rw [if_pos hr] at h
    injection h with h2
    subst h2
    exact ⟨rfl, rfl, rfl, rfl, rfl, hr⟩
  · rw [if_neg hr] at h
    exact absurd h (by simp)

/-- Any client in the hub after a conversation broadcast descends from a
registered client with the same identity, and a client of the target
conversation can only survive if its queue had room. -/
lemma mem_broadcastToConversation (h : Hub) (n : Nat) (msg : String) (x : Client)
    (hx : x ∈ (broadcastToConversation h n msg).clients) :
    ∃ a ∈ h.clients, x.id = a.id ∧ (a.conversationID = n → a.send.length < a.sendCap) := by
  unfold broadcastToConversation at hx
  simp only [List.mem_filterMap] at hx
  rcases hx with ⟨a, ha, hfa⟩
  by_cases hcn : (a.conversationID == n) = true
  · rw [if_pos hcn] at hfa
    have hs := sendOrEvict_some msg a x hfa
    exact ⟨a, ha, hs.1, fun _ => hs.2.2.2.2.2⟩
  · rw [if_neg hcn] at hfa
    injection hfa with h2
    subst h2
    exact ⟨a, ha, rfl, fun hn => absurd (by simp [hn]) hcn⟩

/-- C5: after every hub operation the conversation fan-out membership is
a subset of the registry (membership is derived by scanning the one
clients map); a client with a full queue in the target conversation is
evicted from the registry, hence from every conversation membership, by
the broadcast itself, and a subsequent broadcast to the same
conversation cannot deliver to it. -/
theorem router_membership_subset (h : Hub) (op : HubOp) (n m2 : Nat) (c : Client)
    (msg msg2 : String)
    (hpair : h.clients.Pairwise fun a b => a.id ≠ b.id)
    (hmem : c ∈ h.clients) (hfull : ¬ c.send.length < c.sendCap)
    (hconv : c.conversationID = n) :
    (∀ x ∈ conversationMembers (applyHubOp h op) m2, x ∈ (applyHubOp h op).clients) ∧
    (∀ x ∈ (broadcastToConversation h n msg).clients, x.id ≠ c.id) ∧
    (∀ x ∈ conversationMembers (broadcastToConversation h n msg) m2, x.id ≠ c.id) ∧
    (∀ x ∈ (broadcastToConversation (broadcastToConversation h n msg) n msg2).clients,
      x.id ≠ c.id) := by
  have hsym : Symmetric fun (a b : Client) => a.id ≠ b.id := fun x y hxy e => hxy e.symm
  have p2 : ∀ x ∈ (broadcastToConversation h n msg).clients, x.id ≠ c.id := by
    intro x hx
    rcases mem_broadcastToConversation h n msg x hx with ⟨a, ha, hid, himpl⟩
    by_cases hac : a = c
    · subst hac
      exact absurd (himpl hconv) hfull
    · intro he
      exact hpair.forall hsym ha hmem hac (hid ▸ he)
  refine ⟨?_, p2, ?_, ?_⟩
  · intro x hx
    exact List.mem_of_mem_filter hx
  · intro x hx
    exact p2 x (List.mem_of_mem_filter hx)
  · intro x hx
    rcases mem_broadcastToConversation (broadcastToConversation h n msg) n msg2 x hx with
      ⟨a, ha, hid, _⟩
    intro he
    exact p2 a ha (hid ▸ he)

/-- Hub for the C5 witness: client 1 is joined to conversation 7 with a
full outbound queue, client 2 is joined to 7 with room. -/
def hubW : Hub :=
  { clients := [
      { id := 1, userID := 10, conversationID := 7, send := ["old"], sendCap := 1 },
      { id := 2, userID := 11, conversationID := 7, send := [], sendCap := 4 }] }

/-- Witness for C5 at hubW: broadcasting to conversation 7 evicts the
full client 1 from the registry and every conversation membership. -/
theorem router_membership_subset_witness :
    (∀ x ∈ conversationMembers (applyHubOp hubW (HubOp.broadcastConv 7 "m")) 7,
      x ∈ (applyHubOp hubW (HubOp.broadcastConv 7 "m")).clients) ∧
    (∀ x ∈ (broadcastToConversation hubW 7 "m").clients, x.id ≠ 1) ∧
    (∀ x ∈ conversationMembers (broadcastToConversation hubW 7 "m") 7, x.id ≠ 1) ∧
    (∀ x ∈ (broadcastToConversation (broadcastToConversation hubW 7 "m") 7 "m2").clients,
      x.id ≠ 1) :=
  router_membership_subset hubW (HubOp.broadcastConv 7 "m") 7 7
    { id := 1, userID := 10, conversationID := 7, send := ["old"], sendCap := 1 }
    "m" "m2" (by decide) (by decide) (by decide) (by decide)

/-- C9: a join_conversation frame sets the session conversation id to n
for any connected session and any n, with no participant check (the
theorem holds for every hub state, every owning user and every n), and
afterwards every conversation-n broadcast with room in the queue
delivers the payload to that session. -/
theorem join_conversation_no_check (h : Hub) (c : Client) (n : Nat) (msg : String)
    (hmem : c ∈ h.clients) (hroom : c.send.length < c.sendCap) :
    (readPumpStep h c.id c.userID (InboundFrame.joinConversation (some n))).2 = false ∧
    { c with conversationID := n } ∈
      (readPumpStep h c.id c.userID (InboundFrame.joinConversation (some n))).1.clients ∧
    { c with conversationID := n, send := c.send ++ [msg] } ∈
      (broadcastToConversation
        (readPumpStep h c.id c.userID (InboundFrame.joinConversation (some n))).1
        n msg).clients := by
  have hmem2 : { c with conversationID := n } ∈
      (setClientConversation h c.id n).clients := by
    unfold setClientConversation
    have h2 := List.mem_map_of_mem
      (fun x => if x.id == c.id then { x with conversationID := n } else x) hmem
    simpa using h2
  refine ⟨rfl, hmem2, ?_⟩
  unfold broadcastToConversation
  simp only [List.mem_filterMap]
  refine ⟨{ c with conversationID := n }, hmem2, ?_⟩
  simp [sendOrEvict, hroom]

/-- Hub for the C9 witness: the session of user 42 is not a participant
of any conversation, yet joins conversation 99. -/
def hubW9 : Hub :=
  { clients := [{ id := 5, userID := 42, conversationID := 0, send := [], sendCap := 8 }] }

/-- Witness for C9 at hubW9 with conversation 99. -/
theorem join_conversation_no_check_witness :
    (readPumpStep hubW9 5 42 (InboundFrame.joinConversation (some 99))).2 = false ∧
    { id := 5, userID := 42, conversationID := 99, send := [], sendCap := 8 } ∈
      (readPumpStep hubW9 5 42 (InboundFrame.joinConversation (some 99))).1.clients ∧
    { id := 5, userID := 42, conversationID := 99,
      send := ([] : List String) ++ ["payload"], sendCap := 8 } ∈
      (broadcastToConversation
        (readPumpStep hubW9 5 42 (InboundFrame.joinConversation (some 99))).1
        99 "payload").clients :=
  join_conversation_no_check hubW9
    { id := 5, userID := 42, conversationID := 0, send := [], sendCap := 8 }
    99 "payload" (by decide) (by decide)

/-- C8: a session that joins conversation 7 and then sends a typing
frame receives its own typing broadcast (the fan-out targets every
session joined to 7, the sender included), and the delivered frame is
exactly the JSON object with type typing, the conversation id, the
sender user id and is_typing true; a stop_typing frame yields the same
object with is_typing false. -/
theorem typing_self_broadcast (h : Hub) (c : Client)
    (hmem : c ∈ h.clients) (hroom : c.send.length < c.sendCap) :
    ({ c with conversationID := 7, send := c.send ++
        ["\x7b\"type\":\"typing\",\"conversation_id\":7,\"user_id\":" ++
          toString c.userID ++ ",\"is_typing\":true\x7d"] } ∈
      (runReadPump h c.id c.userID
        [InboundFrame.joinConversation (some 7), InboundFrame.typing (some 7)]).clients) ∧
    (∀ d ∈ h.clients, d.id ≠ c.id → d.conversationID = 7 → d.send.length < d.sendCap →
      { d with send := d.send ++
          ["\x7b\"type\":\"typing\",\"conversation_id\":7,\"user_id\":" ++
            toString c.userID ++ ",\"is_typing\":true\x7d"] } ∈
        (runReadPump h c.id c.userID
          [InboundFrame.joinConversation (some 7), InboundFrame.typing (some 7)]).clients) ∧
    ({ c with conversationID := 7, send := c.send ++
        ["\x7b\"type\":\"typing\",\"conversation_id\":7,\"user_id\":" ++
          toString c.userID ++ ",\"is_typing\":false\x7d"] } ∈
      (runReadPump h c.id c.userID
        [InboundFrame.joinConversation (some 7), InboundFrame.stopTyping (some 7)]).clients) := by
  have h7 : (toString (7 : Nat) : String) = "7" := rfl
  have hframe_t : marshalTypingMessage
      { kind := "typing", conversationID := 7, userID := c.userID, isTyping := true } =
      "\x7b\"type\":\"typing\",\"conversation_id\":7,\"user_id\":" ++
        toString c.userID ++ ",\"is_typing\":true\x7d" := by
    simp [marshalTypingMessage, h7, String.append_assoc]
  have hframe_f : marshalTypingMessage
      { kind := "typing", conversationID := 7, userID := c.userID, isTyping := false } =
      "\x7b\"type\":\"typing\",\"conversation_id\":7,\"user_id\":" ++
        toString c.userID ++ ",\"is_typing\":false\x7d" := by
    simp [marshalTypingMessage, h7, String.append_assoc]
  have hrun_t : runReadPump h c.id c.userID
      [InboundFrame.joinConversation (some 7), InboundFrame.typing (some 7)] =
      broadcastToConversation (setClientConversation h c.id 7) 7
        (marshalTypingMessage
          { kind := "typing", conversationID := 7, userID := c.userID, isTyping := true }) := by
    simp [runReadPump, readPumpStep]
  have hrun_f : runReadPump h c.id c.userID
      [InboundFrame.joinConversation (some 7), InboundFrame.stopTyping (some 7)] =
      broadcastToConversation (setClientConversation h c.id 7) 7
        (marshalTypingMessage
          { kind := "typing", conversationID := 7, userID := c.userID, isTyping := false }) := by
    simp [runReadPump, readPumpStep]
  have hmem1 : { c with conversationID := 7 } ∈ (setClientConversation h c.id 7).clients := by
    unfold setClientConversation
    have h2 := List.mem_map_of_mem
      (fun x => if x.id == c.id then { x with conversationID := 7 } else x) hmem
    simpa using h2
  refine ⟨?_, ?_, ?_⟩
  · rw [hrun_t, hframe_t]
    unfold broadcastToConversation
    simp only [List.mem_filterMap]
    refine ⟨{ c with conversationID := 7 }, hmem1, ?_⟩
    simp [sendOrEvict, hroom]
  · intro d hd hdc hd7 hdroom
    have hdmem1 : d ∈ (setClientConversation h c.id 7).clients := by
      unfold setClientConversation
      have hne : (d.id == c.id) = false := by simp [hdc]
      have h2 := List.mem_map_of_mem
        (fun x => if x.id == c.id then { x with conversationID := 7 } else x) hd
      simpa [hne] using h2
    rw [hrun_t, hframe_t]
    unfold broadcastToConversation
    simp only [List.mem_filterMap]
    refine ⟨d, hdmem1, ?_⟩
    simp [sendOrEvict, hd7, hdroom]
  · rw [hrun_f, hframe_f]
    unfold broadcastToConversation
    simp only [List.mem_filterMap]
    refine ⟨{ c with conversationID := 7 }, hmem1, ?_⟩
    simp [sendOrEvict, hroom]

/-- Client and hub for the C8 witness: session 1 (user 21) will join 7;
session 2 (user 22) is already joined to 7. -/
def cW8 : Client :=
  { id := 1, userID := 21, conversationID := 0, send := [], sendCap := 3 }

def dW8 : Client :=
  { id := 2, userID := 22, conversationID := 7, send := [], sendCap := 3 }

def hubW8 : Hub := { clients := [cW8, dW8] }

/-- Witness for C8 at hubW8: the sender and the other joined session
both receive the literal typing frame of user 21. -/
theorem typing_self_broadcast_witness :
    ({ cW8 with conversationID := 7, send := cW8.send ++
        ["\x7b\"type\":\"typing\",\"conversation_id\":7,\"user_id\":" ++
          toString cW8.userID ++ ",\"is_typing\":true\x7d"] } ∈
      (runReadPump hubW8 cW8.id cW8.userID
        [InboundFrame.joinConversation (some 7), InboundFrame.typing (some 7)]).clients) ∧
    ({ dW8 with send := dW8.send ++
        ["\x7b\"type\":\"typing\",\"conversation_id\":7,\"user_id\":" ++
          toString cW8.userID ++ ",\"is_typing\":true\x7d"] } ∈
      (runReadPump hubW8 cW8.id cW8.userID
        [InboundFrame.joinConversation (some 7), InboundFrame.typing (some 7)]).clients) ∧
    ({ cW8 with conversationID := 7, send := cW8.send ++
        ["\x7b\"type\":\"typing\",\"conversation_id\":7,\"user_id\":" ++
          toString cW8.userID ++ ",\"is_typing\":false\x7d"] } ∈
      (runReadPump hubW8 cW8.id cW8.userID
        [InboundFrame.joinConversation (some 7), InboundFrame.stopTyping (some 7)]).clients) :=
  ⟨(typing_self_broadcast hubW8 cW8 (by decide) (by decide)).1,
   (typing_self_broadcast hubW8 cW8 (by decide) (by decide)).2.1 dW8
     (by decide) (by decide) (by decide) (by decide),
   (typing_self_broadcast hubW8 cW8 (by decide) (by decide)).2.2⟩

/-- Hub for the C4 counterexample and witness: two live sessions. -/
def hubC4 : Hub :=
  { clients := [
      { id := 1, userID := 10, conversationID := 0, send := [], sendCap := 2 },
      { id := 2, userID := 11, conversationID := 3, send := [], sendCap := 2 }] }

/-- Counterexample to C4 as stated: the claim says a malformed, non-JSON
inbound frame causes the session to unregister itself from the hub, but
Client.readPump logs the json.Unmarshal error and continues; after the
malformed frame the session of client 1 is still registered and the hub
is completely unchanged, and the read loop has not terminated. -/
theorem malformed_frame_no_teardown :
    (readPumpStep hubC4 1 10 InboundFrame.malformed).1 = hubC4 ∧
    (readPumpStep hubC4 1 10 InboundFrame.malformed).2 = false ∧
    (runReadPump hubC4 1 10 [InboundFrame.malformed]).clients = hubC4.clients ∧
    { id := 1, userID := 10, conversationID := 0, send := ([] : List String), sendCap := 2 } ∈
      (runReadPump hubC4 1 10 [InboundFrame.malformed]).clients := by
  refine ⟨rfl, rfl, rfl, ?_⟩
  decide

/-- C4 (amended): a read error makes the session unregister itself from
the hub and close its socket, and that teardown touches only the
offending session: every other session is retained untouched; a
malformed, non-JSON inbound frame does not tear the session down, the
frame is skipped and the hub is left unchanged. -/
theorem read_error_teardown_only_offender (h : Hub) (cid uid : Nat) :
    readPumpStep h cid uid InboundFrame.readError = (unregisterClient h cid, true) ∧
    (∀ x ∈ (readPumpStep h cid uid InboundFrame.readError).1.clients, x.id ≠ cid) ∧
    (∀ x ∈ h.clients, x.id ≠ cid →
      x ∈ (readPumpStep h cid uid InboundFrame.readError).1.clients) ∧
    readPumpStep h cid uid InboundFrame.malformed = (h, false) := by
  refine ⟨rfl, ?_, ?_, rfl⟩
  · intro x hx
    have h2 := List.mem_filter.1 hx
    simpa using h2.2
  · intro x hx hxid
    refine List.mem_filter.2 ⟨hx, ?_⟩
    simpa using hxid

/-- Witness for the amended C4 at hubC4: a read error on session 1
removes exactly session 1; session 2 survives untouched. -/
theorem read_error_teardown_only_offender_witness :
    readPumpStep hubC4 1 10 InboundFrame.readError = (unregisterClient hubC4 1, true) ∧
    (∀ x ∈ (readPumpStep hubC4 1 10 InboundFrame.readError).1.clients, x.id ≠ 1) ∧
    ({ id := 2, userID := 11, conversationID := 3, send := ([] : List String), sendCap := 2 } ∈
      (readPumpStep hubC4 1 10 InboundFrame.readError).1.clients) ∧
    readPumpStep hubC4 1 10 InboundFrame.malformed = (hubC4, false) :=
  ⟨(read_error_teardown_only_offender hubC4 1 10).1,
   (read_error_teardown_only_offender hubC4 1 10).2.1,
   (read_error_teardown_only_offender hubC4 1 10).2.2.1
     { id := 2, userID := 11, conversationID := 3, send := ([] : List String), sendCap := 2 }
     (by decide) (by decide),
   (read_error_teardown_only_offender hubC4 1 10).2.2.2⟩
